import Mathlib

/-!
Verification of the process-supervisor core of `loki-network-control-panel`
(`src/process/LokinetProcessManager.hpp`).

The repository ships only the abstract class declaration
(`LokinetProcessManager.hpp`); the member-function bodies
(`LokinetProcessManager.cpp`) are not part of the source tree.  The data
model below (the `ProcessStatus` enumeration, the default member
initializers `m_lastKnownStatus = ProcessStatus::Unknown`, the
default-constructed `m_lastStatusTime`, and the `m_managedThreadRunning`
flag) is taken from the header; the behaviour of each operation is
modelled from the specification document, as indicated on each
definition.

Modelling conventions:
* time is `Nat` (milliseconds since the epoch; a default-constructed
  `std::chrono::system_clock::time_point` is the epoch, i.e. `0`);
* the platform adapter's four primitives are pure inputs: each operation
  receives the result the primitive would return on that invocation
  (`Option Nat` for `resolvePid`, where `none` models primitive failure
  and `some 0` models "no such process"; `Bool` for the success of
  spawn / graceful-stop / force-kill);
* each operation also reports how many times it invoked each adapter
  primitive, so that "the primitive is never invoked" is statable;
* concurrency is modelled by an interleaving transition system
  (`stepSup` / `runSup`) whose atomic events are the public operations
  and the completion of a managed-stop background session, with a ghost
  counter of live sessions.
-/

/-- The process-status enumeration, from the header
(`enum class ProcessStatus`). -/
inductive ProcessStatus
  | Unknown
  | Starting
  | Running
  | Stopping
  | Stopped
  deriving DecidableEq, Repr

/-- The supervisor's private state, from the header: the cached
status/timestamp pair (`m_lastKnownStatus`, `m_lastStatusTime`) and the
single-flight flag `m_managedThreadRunning` for the managed-stop path. -/
structure ManagerState where
  m_lastKnownStatus : ProcessStatus
  m_lastStatusTime : Nat
  m_managedThreadRunning : Bool
  deriving DecidableEq, Repr

/-- The state of a freshly constructed manager: the header's default
member initializers give `m_lastKnownStatus = Unknown`, a
default-constructed (epoch) `m_lastStatusTime`, and a clear
single-flight flag. -/
def initialManagerState : ManagerState :=
  ManagerState.mk ProcessStatus.Unknown 0 false

/-- Modelled from the spec: the recency window of the status cache, "a
fixed small duration — tens of milliseconds to a few seconds, a tunable
constant" (milliseconds). -/
def RECENT_STATUS_WINDOW : Nat := 1000

/-- Modelled from the spec: the grace interval of a managed stop, "a
bounded grace interval (fixed duration, e.g. on the order of a few
seconds — exact value is a tunable constant)" (milliseconds). -/
def MANAGED_STOP_GRACE : Nat := 5000

/-- Invocation counts of the four platform-adapter primitives during one
operation. -/
structure AdapterCalls where
  spawnCalls : Nat
  gracefulCalls : Nat
  forceCalls : Nat
  resolveCalls : Nat
  deriving DecidableEq, Repr

/-- No adapter primitive invoked. -/
def AdapterCalls.zero : AdapterCalls := AdapterCalls.mk 0 0 0 0

/-- Exactly one `resolvePid` invocation. -/
def AdapterCalls.resolveOnly : AdapterCalls := AdapterCalls.mk 0 0 0 1

/-- Pointwise sum of invocation counts. -/
def addCalls (a b : AdapterCalls) : AdapterCalls :=
  AdapterCalls.mk (a.spawnCalls + b.spawnCalls) (a.gracefulCalls + b.gracefulCalls)
    (a.forceCalls + b.forceCalls) (a.resolveCalls + b.resolveCalls)

/-- `setLastKnownStatus`, the single setter of the snapshot: "Update the
last known status and its timestamp" (header).  Modelled from the spec:
"mutated only through a single setter that atomically updates both
fields together". -/
def setLastKnownStatus (st : ProcessStatus) (now : Nat) (s : ManagerState) : ManagerState :=
  ManagerState.mk st now s.m_managedThreadRunning

/-- Write the managed-stop single-flight flag, leaving the snapshot
untouched. -/
def setManagedFlag (b : Bool) (s : ManagerState) : ManagerState :=
  ManagerState.mk s.m_lastKnownStatus s.m_lastStatusTime b

/-- Modelled from the spec: the freshness test of `getLastKnownStatus`
("Return the last known status if it is recent"): the cached snapshot
was updated within the recency window.  `Nat` subtraction makes a cache
stamped in the future count as recent, which never arises along the
traces considered here. -/
def isRecent (now : Nat) (s : ManagerState) : Bool :=
  now - s.m_lastStatusTime ≤ RECENT_STATUS_WINDOW

/-- Result of `queryProcessStatus`: the status reported to the caller,
the successor state, and the adapter invocation counts. -/
structure QueryResult where
  status : ProcessStatus
  state : ManagerState
  calls : AdapterCalls
  deriving DecidableEq, Repr

/-- Result of a `bool`-returning public operation. -/
structure OpResult where
  ok : Bool
  state : ManagerState
  calls : AdapterCalls
  deriving DecidableEq, Repr

/-- Modelled from the spec (the body is absent from the source tree):
`queryProcessStatus`.  "If the cached StatusSnapshot was updated within
a short recency window, return the cached status without touching the
OS.  Otherwise, call the adapter's pid-resolution primitive: if it
yields a nonzero pid, derive Running (updating the cache); if it yields
zero, derive Stopped (updating the cache); if the primitive itself
fails, return Unknown without updating the cache's timestamp."
`resolvePid` is the result the adapter primitive would return on this
invocation (`none` models primitive failure). -/
def queryProcessStatus (now : Nat) (resolvePid : Option Nat) (s : ManagerState) : QueryResult :=
  if isRecent now s then
    QueryResult.mk s.m_lastKnownStatus s AdapterCalls.zero
  else
    match resolvePid with
    | none => QueryResult.mk ProcessStatus.Unknown s AdapterCalls.resolveOnly
    | some pid =>
      if pid = 0 then
        QueryResult.mk ProcessStatus.Stopped
          (setLastKnownStatus ProcessStatus.Stopped now s) AdapterCalls.resolveOnly
      else
        QueryResult.mk ProcessStatus.Running
          (setLastKnownStatus ProcessStatus.Running now s) AdapterCalls.resolveOnly

/-- Modelled from the spec (the body is absent from the source tree):
`startLokinetProcess`.  "Precondition check: query current status; if
already Running or Starting, fail (return false).  Otherwise: set
cached status to Starting, invoke the adapter's spawn primitive.  On
adapter success: leave status as Starting.  On adapter failure: set
cached status to Stopped and return false." -/
def startLokinetProcess (now : Nat) (resolvePid : Option Nat) (spawnOk : Bool)
    (s : ManagerState) : OpResult :=
  let q := queryProcessStatus now resolvePid s
  if q.status = ProcessStatus.Running ∨ q.status = ProcessStatus.Starting then
    OpResult.mk false q.state q.calls
  else
    let s1 := setLastKnownStatus ProcessStatus.Starting now q.state
    if spawnOk then
      OpResult.mk true s1 (addCalls q.calls (AdapterCalls.mk 1 0 0 0))
    else
      OpResult.mk false (setLastKnownStatus ProcessStatus.Stopped now s1)
        (addCalls q.calls (AdapterCalls.mk 1 0 0 0))

/-- Modelled from the spec (the body is absent from the source tree):
`stopLokinetProcess`.  "Precondition: query current status; if not
Running, fail and return false.  Set cached status to Stopping, invoke
the adapter's graceful-stop primitive, return its success/failure.  No
waiting for actual exit." -/
def stopLokinetProcess (now : Nat) (resolvePid : Option Nat) (gracefulOk : Bool)
    (s : ManagerState) : OpResult :=
  let q := queryProcessStatus now resolvePid s
  if q.status = ProcessStatus.Running then
    OpResult.mk gracefulOk (setLastKnownStatus ProcessStatus.Stopping now q.state)
      (addCalls q.calls (AdapterCalls.mk 0 1 0 0))
  else
    OpResult.mk false q.state q.calls

/-- Modelled from the spec (the body is absent from the source tree):
`forciblyStopLokinetProcess`.  "Precondition: must currently be running
(by query) or fail.  Invoke the adapter's force-kill primitive
directly, bypassing the graceful path." -/
def forciblyStopLokinetProcess (now : Nat) (resolvePid : Option Nat) (forceOk : Bool)
    (s : ManagerState) : OpResult :=
  let q := queryProcessStatus now resolvePid s
  if q.status = ProcessStatus.Running then
    OpResult.mk forceOk q.state (addCalls q.calls (AdapterCalls.mk 0 0 1 0))
  else
    OpResult.mk false q.state q.calls

/-- The adapter responses consumed by one managed-stop background
session: the time at which the session's graceful stop runs, the
`resolvePid` result its precondition query would see, the success of
the graceful-stop primitive, the `resolvePid` result of the re-query
after the grace interval, and the success of the force-kill
primitive. -/
structure SessionEnv where
  t1 : Nat
  r1 : Option Nat
  gracefulOk : Bool
  r2 : Option Nat
  forceOk : Bool
  deriving DecidableEq, Repr

/-- Modelled from the spec (the body is absent from the source tree):
the background task of a managed stop.  "1. Calls stopProcess
(graceful).  2. Waits a bounded grace interval.  3. Re-queries status;
if still running, calls forciblyStopProcess.  4. Releases the
single-flight flag unconditionally." -/
def managedStopSession (env : SessionEnv) (s : ManagerState) : ManagerState × AdapterCalls :=
  let o1 := stopLokinetProcess env.t1 env.r1 env.gracefulOk s
  let t2 := env.t1 + MANAGED_STOP_GRACE
  let q := queryProcessStatus t2 env.r2 o1.state
  if q.status = ProcessStatus.Running then
    let o2 := forciblyStopLokinetProcess t2 env.r2 env.forceOk q.state
    (setManagedFlag false o2.state, addCalls o1.calls (addCalls q.calls o2.calls))
  else
    (setManagedFlag false q.state, addCalls o1.calls q.calls)

/-- Modelled from the spec (the body is absent from the source tree):
the caller-side part of `managedStopLokinetProcess`.  "Single-flight
guard: attempt to acquire the managed-stop-in-progress exclusive flag;
if already held, fail immediately.  Precondition: process must be
running (else release the flag and fail).  Spawn a background task;
returns true immediately once the background task is successfully
spawned; if spawning the background task itself fails, the flag must be
released before returning."  `spawnOk` is whether spawning the
background thread succeeds; the spawned task itself is
`managedStopSession`, run later as a separate atomic event. -/
def managedStopLokinetProcess (now : Nat) (resolvePid : Option Nat) (spawnOk : Bool)
    (s : ManagerState) : OpResult :=
  if s.m_managedThreadRunning then
    OpResult.mk false s AdapterCalls.zero
  else
    let s1 := setManagedFlag true s
    let q := queryProcessStatus now resolvePid s1
    if q.status = ProcessStatus.Running then
      if spawnOk then
        OpResult.mk true q.state q.calls
      else
        OpResult.mk false (setManagedFlag false q.state) q.calls
    else
      OpResult.mk false (setManagedFlag false q.state) q.calls

/-- An atomic event of the interleaving model: one public operation (with
the adapter responses that invocation would see) or the completion of a
managed-stop background session.  The spec's concurrency model makes the
flag acquisition check-and-set, so each event is atomic. -/
inductive SupEvent
  | startEv (now : Nat) (r : Option Nat) (ok : Bool)
  | stopEv (now : Nat) (r : Option Nat) (ok : Bool)
  | forceEv (now : Nat) (r : Option Nat) (ok : Bool)
  | queryEv (now : Nat) (r : Option Nat)
  | managedEv (now : Nat) (r : Option Nat) (spawnOk : Bool)
  | completeEv (env : SessionEnv)
  deriving DecidableEq, Repr

/-- The supervisor state together with a ghost count of the live
managed-stop background sessions. -/
structure SupState where
  mgr : ManagerState
  sessions : Nat
  deriving DecidableEq, Repr

/-- The state of a freshly constructed supervisor: no session live. -/
def supInit : SupState := SupState.mk initialManagerState 0

/-- One atomic step of the interleaving model; the `Bool` is the value
the operation returns to its caller (`completeEv` reports whether a
session was actually live to complete). -/
def stepSup (s : SupState) (e : SupEvent) : SupState × Bool :=
  match e with
  | SupEvent.startEv now r ok =>
    let o := startLokinetProcess now r ok s.mgr
    (SupState.mk o.state s.sessions, o.ok)
  | SupEvent.stopEv now r ok =>
    let o := stopLokinetProcess now r ok s.mgr
    (SupState.mk o.state s.sessions, o.ok)
  | SupEvent.forceEv now r ok =>
    let o := forciblyStopLokinetProcess now r ok s.mgr
    (SupState.mk o.state s.sessions, o.ok)
  | SupEvent.queryEv now r =>
    let q := queryProcessStatus now r s.mgr
    (SupState.mk q.state s.sessions, true)
  | SupEvent.managedEv now r spawnOk =>
    let o := managedStopLokinetProcess now r spawnOk s.mgr
    (SupState.mk o.state (if o.ok then s.sessions + 1 else s.sessions), o.ok)
  | SupEvent.completeEv env =>
    if s.sessions = 0 then (s, false)
    else (SupState.mk (managedStopSession env s.mgr).1 (s.sessions - 1), true)

/-- Run a sequence of atomic events. -/
def runSup (s : SupState) (es : List SupEvent) : SupState :=
  es.foldl (fun t e => (stepSup t e).1) s

/-- The wall-clock instants at which an event touches the snapshot (a
session event touches it when its graceful stop runs and again after
the grace interval). -/
def eventTimes (e : SupEvent) : List Nat :=
  match e with
  | SupEvent.startEv now _ _ => [now]
  | SupEvent.stopEv now _ _ => [now]
  | SupEvent.forceEv now _ _ => [now]
  | SupEvent.queryEv now _ => [now]
  | SupEvent.managedEv now _ _ => [now]
  | SupEvent.completeEv env => [env.t1, env.t1 + MANAGED_STOP_GRACE]

/-- The single-flight ghost invariant: the number of live managed-stop
sessions is `1` exactly when the `m_managedThreadRunning` flag is held,
and `0` otherwise. -/
def supInv (s : SupState) : Prop :=
  s.sessions = (if s.mgr.m_managedThreadRunning then 1 else 0)

theorem query_flag (now : Nat) (r : Option Nat) (s : ManagerState) :
    (queryProcessStatus now r s).state.m_managedThreadRunning = s.m_managedThreadRunning := by
  by_cases h : isRecent now s = true
  · simp [queryProcessStatus, h]
  · cases r with
    | none => simp [queryProcessStatus, h]
    | some pid =>
      by_cases hp : pid = 0 <;> simp [queryProcessStatus, h, hp, setLastKnownStatus]

theorem isRecent_setManagedFlag (now : Nat) (b : Bool) (s : ManagerState) :
    isRecent now (setManagedFlag b s) = isRecent now s := rfl

theorem query_status_flag (now : Nat) (r : Option Nat) (b : Bool) (s : ManagerState) :
    (queryProcessStatus now r (setManagedFlag b s)).status = (queryProcessStatus now r s).status := by
  simp only [queryProcessStatus, isRecent_setManagedFlag]
  by_cases h : isRecent now s = true
  · simp [h, setManagedFlag]
  · cases r with
    | none => simp [h]
    | some pid => by_cases hp : pid = 0 <;> simp [h, hp]

theorem start_flag (now : Nat) (r : Option Nat) (ok : Bool) (s : ManagerState) :
    (startLokinetProcess now r ok s).state.m_managedThreadRunning = s.m_managedThreadRunning := by
  unfold startLokinetProcess
  simp only []
  split
  · exact query_flag now r s
  · split <;> simp [setLastKnownStatus, query_flag now r s]

theorem stop_flag (now : Nat) (r : Option Nat) (ok : Bool) (s : ManagerState) :
    (stopLokinetProcess now r ok s).state.m_managedThreadRunning = s.m_managedThreadRunning := by
  unfold stopLokinetProcess
  simp only []
  split
  · simp [setLastKnownStatus, query_flag now r s]
  · exact query_flag now r s

theorem force_flag (now : Nat) (r : Option Nat) (ok : Bool) (s : ManagerState) :
    (forciblyStopLokinetProcess now r ok s).state.m_managedThreadRunning =
      s.m_managedThreadRunning := by
  unfold forciblyStopLokinetProcess
  simp only []
  split <;> exact query_flag now r s

theorem session_flag (env : SessionEnv) (s : ManagerState) :
    (managedStopSession env s).1.m_managedThreadRunning = false := by
  unfold managedStopSession
  simp only []
  split <;> rfl

theorem managed_already (now : Nat) (r : Option Nat) (sp : Bool) (s : ManagerState)
    (h : s.m_managedThreadRunning = true) :
    managedStopLokinetProcess now r sp s = OpResult.mk false s AdapterCalls.zero := by
  unfold managedStopLokinetProcess
  simp [h]

theorem managed_flag_result (now : Nat) (r : Option Nat) (sp : Bool) (s : ManagerState)
    (h : s.m_managedThreadRunning = false) :
    (managedStopLokinetProcess now r sp s).state.m_managedThreadRunning =
      (managedStopLokinetProcess now r sp s).ok := by
  unfold managedStopLokinetProcess
  simp only [h, Bool.false_eq_true, if_false]
  split
  · split
    · simp [query_flag, setManagedFlag]
    · rfl
  · rfl

theorem stepSup_inv (s : SupState) (e : SupEvent) (h : supInv s) : supInv (stepSup s e).1 := by
  cases e with
  | startEv now r ok =>
    unfold supInv stepSup at *
    simp only [start_flag]
    exact h
  | stopEv now r ok =>
    unfold supInv stepSup at *
    simp only [stop_flag]
    exact h
  | forceEv now r ok =>
    unfold supInv stepSup at *
    simp only [force_flag]
    exact h
  | queryEv now r =>
    unfold supInv stepSup at *
    simp only [query_flag]
    exact h
  | managedEv now r sp =>
    by_cases hm : s.mgr.m_managedThreadRunning = true
    · unfold supInv stepSup at *
      simp only [managed_already now r sp s.mgr hm]
      simpa [hm] using h
    · have hm' : s.mgr.m_managedThreadRunning = false := by
        cases hb : s.mgr.m_managedThreadRunning
        · rfl
        · exact absurd hb hm
      unfold supInv stepSup at *
      simp only [managed_flag_result now r sp s.mgr hm']
      have h0 : s.sessions = 0 := by simpa [hm'] using h
      cases hok : (managedStopLokinetProcess now r sp s.mgr).ok <;> simp [h0]
  | completeEv env =>
    unfold supInv stepSup at *
    by_cases hz : s.sessions = 0
    · simp [hz]
      simpa [hz] using h
    · simp only [hz, if_false]
      have h1 : s.sessions = 1 := by
        cases hb : s.mgr.m_managedThreadRunning
        · exact absurd (by simpa [hb] using h) hz
        · simpa [hb] using h
      simp [session_flag, h1]

theorem runSup_inv_aux (es : List SupEvent) :
    ∀ s : SupState, supInv s → supInv (runSup s es) := by
  induction es with
  | nil => intro s h; exact h
  | cons e es ih =>
    intro s h
    exact ih (stepSup s e).1 (stepSup_inv s e h)

theorem supInit_inv : supInv supInit := by
  unfold supInv supInit initialManagerState
  rfl

theorem runSup_inv (es : List SupEvent) : supInv (runSup supInit es) :=
  runSup_inv_aux es supInit supInit_inv

theorem query_fresh (now : Nat) (r : Option Nat) (s : ManagerState)
    (h : isRecent now s = true) :
    queryProcessStatus now r s = QueryResult.mk s.m_lastKnownStatus s AdapterCalls.zero := by
  unfold queryProcessStatus
  simp [h]

theorem query_stale_none (now : Nat) (s : ManagerState) (h : isRecent now s = false) :
    queryProcessStatus now none s =
      QueryResult.mk ProcessStatus.Unknown s AdapterCalls.resolveOnly := by
  unfold queryProcessStatus
  simp [h]

theorem query_stale_zero (now : Nat) (s : ManagerState) (h : isRecent now s = false) :
    queryProcessStatus now (some 0) s =
      QueryResult.mk ProcessStatus.Stopped (setLastKnownStatus ProcessStatus.Stopped now s)
        AdapterCalls.resolveOnly := by
  unfold queryProcessStatus
  simp [h]

theorem query_stale_pos (now : Nat) (p : Nat) (s : ManagerState)
    (h : isRecent now s = false) (hp : p ≠ 0) :
    queryProcessStatus now (some p) s =
      QueryResult.mk ProcessStatus.Running (setLastKnownStatus ProcessStatus.Running now s)
        AdapterCalls.resolveOnly := by
  unfold queryProcessStatus
  simp [h, hp]

theorem query_calls_cases (now : Nat) (r : Option Nat) (s : ManagerState) :
    (queryProcessStatus now r s).calls = AdapterCalls.zero ∨
      (queryProcessStatus now r s).calls = AdapterCalls.resolveOnly := by
  by_cases h : isRecent now s = true
  · left
    rw [query_fresh now r s h]
  · right
    have h' : isRecent now s = false := by
      cases hb : isRecent now s
      · rfl
      · exact absurd hb h
    cases r with
    | none => rw [query_stale_none now s h']
    | some p =>
      by_cases hp : p = 0
      · subst hp
        rw [query_stale_zero now s h']
      · rw [query_stale_pos now p s h' hp]

theorem query_spawnCalls (now : Nat) (r : Option Nat) (s : ManagerState) :
    (queryProcessStatus now r s).calls.spawnCalls = 0 := by
  rcases query_calls_cases now r s with h | h <;> rw [h] <;> rfl

theorem query_gracefulCalls (now : Nat) (r : Option Nat) (s : ManagerState) :
    (queryProcessStatus now r s).calls.gracefulCalls = 0 := by
  rcases query_calls_cases now r s with h | h <;> rw [h] <;> rfl

theorem query_forceCalls (now : Nat) (r : Option Nat) (s : ManagerState) :
    (queryProcessStatus now r s).calls.forceCalls = 0 := by
  rcases query_calls_cases now r s with h | h <;> rw [h] <;> rfl

theorem query_resolveCalls_le (now : Nat) (r : Option Nat) (s : ManagerState) :
    (queryProcessStatus now r s).calls.resolveCalls ≤ 1 := by
  rcases query_calls_cases now r s with h | h <;> rw [h] <;> simp [AdapterCalls.zero, AdapterCalls.resolveOnly]

theorem query_stale_resolves (now : Nat) (r : Option Nat) (s : ManagerState)
    (h : isRecent now s = false) :
    (queryProcessStatus now r s).calls.resolveCalls = 1 := by
  cases r with
  | none => rw [query_stale_none now s h]; rfl
  | some p =>
    by_cases hp : p = 0
    · subst hp
      rw [query_stale_zero now s h]; rfl
    · rw [query_stale_pos now p s h hp]; rfl

theorem query_stale_not_starting (now : Nat) (r : Option Nat) (s : ManagerState)
    (h : isRecent now s = false) :
    (queryProcessStatus now r s).status ≠ ProcessStatus.Starting := by
  cases r with
  | none => rw [query_stale_none now s h]; intro hc; cases hc
  | some p =>
    by_cases hp : p = 0
    · subst hp
      rw [query_stale_zero now s h]; intro hc; cases hc
    · rw [query_stale_pos now p s h hp]; intro hc; cases hc

theorem start_precond_fail (now : Nat) (r : Option Nat) (sp : Bool) (s : ManagerState)
    (h : (queryProcessStatus now r s).status = ProcessStatus.Running ∨
         (queryProcessStatus now r s).status = ProcessStatus.Starting) :
    startLokinetProcess now r sp s =
      OpResult.mk false (queryProcessStatus now r s).state (queryProcessStatus now r s).calls := by
  unfold startLokinetProcess
  simp only []
  rw [if_pos h]

theorem start_go_ok (now : Nat) (r : Option Nat) (s : ManagerState)
    (h : ¬((queryProcessStatus now r s).status = ProcessStatus.Running ∨
           (queryProcessStatus now r s).status = ProcessStatus.Starting)) :
    startLokinetProcess now r true s =
      OpResult.mk true
        (setLastKnownStatus ProcessStatus.Starting now (queryProcessStatus now r s).state)
        (addCalls (queryProcessStatus now r s).calls (AdapterCalls.mk 1 0 0 0)) := by
  unfold startLokinetProcess
  simp only []
  rw [if_neg h]
  rfl

theorem start_go_fail (now : Nat) (r : Option Nat) (s : ManagerState)
    (h : ¬((queryProcessStatus now r s).status = ProcessStatus.Running ∨
           (queryProcessStatus now r s).status = ProcessStatus.Starting)) :
    startLokinetProcess now r false s =
      OpResult.mk false
        (setLastKnownStatus ProcessStatus.Stopped now
          (setLastKnownStatus ProcessStatus.Starting now (queryProcessStatus now r s).state))
        (addCalls (queryProcessStatus now r s).calls (AdapterCalls.mk 1 0 0 0)) := by
  unfold startLokinetProcess
  simp only []
  rw [if_neg h]
  rfl

theorem stop_run (now : Nat) (r : Option Nat) (g : Bool) (s : ManagerState)
    (h : (queryProcessStatus now r s).status = ProcessStatus.Running) :
    stopLokinetProcess now r g s =
      OpResult.mk g
        (setLastKnownStatus ProcessStatus.Stopping now (queryProcessStatus now r s).state)
        (addCalls (queryProcessStatus now r s).calls (AdapterCalls.mk 0 1 0 0)) := by
  unfold stopLokinetProcess
  simp only []
  rw [if_pos h]

theorem stop_notrun (now : Nat) (r : Option Nat) (g : Bool) (s : ManagerState)
    (h : (queryProcessStatus now r s).status ≠ ProcessStatus.Running) :
    stopLokinetProcess now r g s =
      OpResult.mk false (queryProcessStatus now r s).state (queryProcessStatus now r s).calls := by
  unfold stopLokinetProcess
  simp only []
  rw [if_neg h]

theorem force_run (now : Nat) (r : Option Nat) (f : Bool) (s : ManagerState)
    (h : (queryProcessStatus now r s).status = ProcessStatus.Running) :
    forciblyStopLokinetProcess now r f s =
      OpResult.mk f (queryProcessStatus now r s).state
        (addCalls (queryProcessStatus now r s).calls (AdapterCalls.mk 0 0 1 0)) := by
  unfold forciblyStopLokinetProcess
  simp only []
  rw [if_pos h]

theorem force_notrun (now : Nat) (r : Option Nat) (f : Bool) (s : ManagerState)
    (h : (queryProcessStatus now r s).status ≠ ProcessStatus.Running) :
    forciblyStopLokinetProcess now r f s =
      OpResult.mk false (queryProcessStatus now r s).state (queryProcessStatus now r s).calls := by
  unfold forciblyStopLokinetProcess
  simp only []
  rw [if_neg h]

theorem isRecent_set_self (st : ProcessStatus) (t : Nat) (s : ManagerState) :
    isRecent t (setLastKnownStatus st t s) = true := by
  unfold isRecent setLastKnownStatus
  simp only [decide_eq_true_eq]
  omega

theorem isRecent_set_grace (st : ProcessStatus) (t : Nat) (s : ManagerState) :
    isRecent (t + MANAGED_STOP_GRACE) (setLastKnownStatus st t s) = false := by
  unfold isRecent setLastKnownStatus MANAGED_STOP_GRACE RECENT_STATUS_WINDOW
  simp only [decide_eq_false_iff_not, not_le]
  omega

theorem managed_acquire (now : Nat) (r : Option Nat) (s : ManagerState)
    (hf : s.m_managedThreadRunning = false)
    (hq : (queryProcessStatus now r s).status = ProcessStatus.Running) :
    managedStopLokinetProcess now r true s =
      OpResult.mk true (queryProcessStatus now r (setManagedFlag true s)).state
        (queryProcessStatus now r (setManagedFlag true s)).calls := by
  have hq' : (queryProcessStatus now r (setManagedFlag true s)).status = ProcessStatus.Running := by
    rw [query_status_flag]
    exact hq
  unfold managedStopLokinetProcess
  simp [hf, hq']

theorem managed_spawn_fail (now : Nat) (r : Option Nat) (s : ManagerState)
    (hf : s.m_managedThreadRunning = false)
    (hq : (queryProcessStatus now r s).status = ProcessStatus.Running) :
    managedStopLokinetProcess now r false s =
      OpResult.mk false
        (setManagedFlag false (queryProcessStatus now r (setManagedFlag true s)).state)
        (queryProcessStatus now r (setManagedFlag true s)).calls := by
  have hq' : (queryProcessStatus now r (setManagedFlag true s)).status = ProcessStatus.Running := by
    rw [query_status_flag]
    exact hq
  unfold managedStopLokinetProcess
  simp [hf, hq']

theorem managed_notrun (now : Nat) (r : Option Nat) (sp : Bool) (s : ManagerState)
    (hf : s.m_managedThreadRunning = false)
    (hq : (queryProcessStatus now r s).status ≠ ProcessStatus.Running) :
    managedStopLokinetProcess now r sp s =
      OpResult.mk false
        (setManagedFlag false (queryProcessStatus now r (setManagedFlag true s)).state)
        (queryProcessStatus now r (setManagedFlag true s)).calls := by
  have hq' : (queryProcessStatus now r (setManagedFlag true s)).status ≠ ProcessStatus.Running := by
    rw [query_status_flag]
    exact hq
  unfold managedStopLokinetProcess
  simp [hf, hq']

theorem managed_spawn_fail_not_ok (now : Nat) (r : Option Nat) (s : ManagerState) :
    (managedStopLokinetProcess now r false s).ok = false := by
  unfold managedStopLokinetProcess
  simp only []
  split
  · rfl
  · split
    · rfl
    · rfl

theorem bool_eq_false_of_not {b : Bool} (h : ¬ b = true) : b = false := by
  cases b
  · rfl
  · exact absurd rfl h

theorem isRecent_mono (now now2 : Nat) (s : ManagerState) (hle : now ≤ now2)
    (h2 : isRecent now2 s = true) : isRecent now s = true := by
  unfold isRecent at *
  simp only [decide_eq_true_eq] at *
  omega

/-- C2: `queryProcessStatus` follows the freshness policy: a query within
the recency window returns the cached status without invoking the
pid-resolution primitive (so a second call while still within the window
of the last update returns the same status, with at most one `resolvePid`
invocation across the two calls); once the window has elapsed it invokes
`resolvePid` exactly once, deriving Running from a nonzero pid and
Stopped from a zero pid (updating the cache in both cases), and
returning Unknown without updating the cache's timestamp when the
primitive itself fails. -/
theorem claim_C2_query_freshness_policy (s : ManagerState) (now : Nat) (r : Option Nat) :
    (isRecent now s = true →
      queryProcessStatus now r s = QueryResult.mk s.m_lastKnownStatus s AdapterCalls.zero)
    ∧ (isRecent now s = false →
        (queryProcessStatus now r s).calls.resolveCalls = 1)
    ∧ (isRecent now s = false → ∀ p : Nat, r = some p → p ≠ 0 →
        queryProcessStatus now r s =
          QueryResult.mk ProcessStatus.Running
            (setLastKnownStatus ProcessStatus.Running now s) AdapterCalls.resolveOnly)
    ∧ (isRecent now s = false → r = some 0 →
        queryProcessStatus now r s =
          QueryResult.mk ProcessStatus.Stopped
            (setLastKnownStatus ProcessStatus.Stopped now s) AdapterCalls.resolveOnly)
    ∧ (isRecent now s = false → r = none →
        queryProcessStatus now r s =
          QueryResult.mk ProcessStatus.Unknown s AdapterCalls.resolveOnly)
    ∧ (∀ now2 r2, now ≤ now2 →
        isRecent now2 (queryProcessStatus now r s).state = true →
        (queryProcessStatus now2 r2 (queryProcessStatus now r s).state).status =
          (queryProcessStatus now r s).status ∧
        (queryProcessStatus now r s).calls.resolveCalls +
          (queryProcessStatus now2 r2 (queryProcessStatus now r s).state).calls.resolveCalls
            ≤ 1) := by
  refine ⟨?_, ?_, ?_, ?_, ?_, ?_⟩
  · intro h
    exact query_fresh now r s h
  · intro h
    exact query_stale_resolves now r s h
  · intro h p hp hp0
    subst hp
    exact query_stale_pos now p s h hp0
  · intro h hr
    subst hr
    exact query_stale_zero now s h
  · intro h hr
    subst hr
    exact query_stale_none now s h
  · intro now2 r2 hmono hfresh
    by_cases h : isRecent now s = true
    · have h1 := query_fresh now r s h
      simp only [h1] at hfresh ⊢
      rw [query_fresh now2 r2 s hfresh]
      simp [AdapterCalls.zero]
    · have h' : isRecent now s = false := bool_eq_false_of_not h
      cases hr : r with
      | none =>
        rw [hr] at hfresh
        have h1 := query_stale_none now s h'
        simp only [h1] at hfresh
        exact absurd (isRecent_mono now now2 s hmono hfresh) (by simp [h'])
      | some p =>
        rw [hr] at hfresh
        by_cases hp : p = 0
        · subst hp
          have h1 := query_stale_zero now s h'
          simp only [h1] at hfresh ⊢
          rw [query_fresh now2 r2 (setLastKnownStatus ProcessStatus.Stopped now s) hfresh]
          simp [setLastKnownStatus, AdapterCalls.zero, AdapterCalls.resolveOnly]
        · have h1 := query_stale_pos now p s h' hp
          simp only [h1] at hfresh ⊢
          rw [query_fresh now2 r2 (setLastKnownStatus ProcessStatus.Running now s) hfresh]
          simp [setLastKnownStatus, AdapterCalls.zero, AdapterCalls.resolveOnly]

theorem claim_C2_witness :
    isRecent 2000 initialManagerState = false ∧
    queryProcessStatus 2000 (some 7) initialManagerState =
      QueryResult.mk ProcessStatus.Running
        (setLastKnownStatus ProcessStatus.Running 2000 initialManagerState)
        AdapterCalls.resolveOnly ∧
    ((2000 : Nat) ≤ 2500 ∧
      isRecent 2500 (queryProcessStatus 2000 (some 7) initialManagerState).state = true ∧
      (queryProcessStatus 2500 none
          (queryProcessStatus 2000 (some 7) initialManagerState).state).status =
        (queryProcessStatus 2000 (some 7) initialManagerState).status ∧
      (queryProcessStatus 2000 (some 7) initialManagerState).calls.resolveCalls +
        (queryProcessStatus 2500 none
            (queryProcessStatus 2000 (some 7) initialManagerState).state).calls.resolveCalls
          ≤ 1) := by
  have h := claim_C2_query_freshness_policy initialManagerState 2000 (some 7)
  refine ⟨by decide, h.2.2.1 (by decide) 7 rfl (by decide), by decide, by decide, ?_⟩
  exact h.2.2.2.2.2 2500 none (by decide) (by decide)

/-- C10: a freshly constructed manager has last-known status Unknown
with an epoch (default-constructed) timestamp, so a first
`queryProcessStatus` at any wall-clock instant later than the recency
window past the epoch (every real execution) is outside the window and
performs a live pid query. -/
theorem claim_C10_fresh_manager_queries_live (now : Nat) (r : Option Nat)
    (h : RECENT_STATUS_WINDOW < now) :
    initialManagerState.m_lastKnownStatus = ProcessStatus.Unknown ∧
    initialManagerState.m_lastStatusTime = 0 ∧
    isRecent now initialManagerState = false ∧
    (queryProcessStatus now r initialManagerState).calls.resolveCalls = 1 := by
  have hstale : isRecent now initialManagerState = false := by
    unfold isRecent initialManagerState RECENT_STATUS_WINDOW at *
    simp only [decide_eq_false_iff_not, not_le]
    omega
  exact ⟨rfl, rfl, hstale, query_stale_resolves now r initialManagerState hstale⟩

theorem claim_C10_witness :
    RECENT_STATUS_WINDOW < 2000 ∧
    (initialManagerState.m_lastKnownStatus = ProcessStatus.Unknown ∧
      initialManagerState.m_lastStatusTime = 0 ∧
      isRecent 2000 initialManagerState = false ∧
      (queryProcessStatus 2000 none initialManagerState).calls.resolveCalls = 1) :=
  ⟨by decide, claim_C10_fresh_manager_queries_live 2000 none (by decide)⟩

/-- C5 counterexample: with a stale cache recording Stopped while the
process is in fact running (pid 7), the precondition query inside
`startLokinetProcess` observes Running, so the call returns false and
spawns nothing — but the query has refreshed the cached status from
Stopped to Running with a new timestamp, a side effect on the cached
status, contradicting the claim as stated. -/
theorem claim_C5_counterexample :
    (queryProcessStatus 2000 (some 7) (ManagerState.mk ProcessStatus.Stopped 0 false)).status =
      ProcessStatus.Running ∧
    (startLokinetProcess 2000 (some 7) true (ManagerState.mk ProcessStatus.Stopped 0 false)).ok =
      false ∧
    (startLokinetProcess 2000 (some 7) true
        (ManagerState.mk ProcessStatus.Stopped 0 false)).calls.spawnCalls = 0 ∧
    (startLokinetProcess 2000 (some 7) true
          (ManagerState.mk ProcessStatus.Stopped 0 false)).state.m_lastKnownStatus ≠
      ProcessStatus.Stopped := by
  decide

/-- C5 (amended): for every state in which the queried status is Running
or Starting, `startLokinetProcess` returns false without invoking the
spawn primitive, and performs no mutation beyond the precondition status
query itself: its final state is exactly the query's state; in
particular, when the status was served from the fresh cache (always the
case when it is Starting) the cached status is entirely unchanged. -/
theorem claim_C5_start_refuses (s : ManagerState) (now : Nat) (r : Option Nat) (sp : Bool)
    (h : (queryProcessStatus now r s).status = ProcessStatus.Running ∨
         (queryProcessStatus now r s).status = ProcessStatus.Starting) :
    (startLokinetProcess now r sp s).ok = false ∧
    (startLokinetProcess now r sp s).calls.spawnCalls = 0 ∧
    (startLokinetProcess now r sp s).state = (queryProcessStatus now r s).state ∧
    (isRecent now s = true → (startLokinetProcess now r sp s).state = s) ∧
    ((queryProcessStatus now r s).status = ProcessStatus.Starting →
      (startLokinetProcess now r sp s).state = s) := by
  have he := start_precond_fail now r sp s h
  refine ⟨by simp [he], by simp [he, query_spawnCalls], by simp [he], ?_, ?_⟩
  · intro hf
    simp [he, query_fresh now r s hf]
  · intro hst
    have hf : isRecent now s = true := by
      by_cases hb : isRecent now s = true
      · exact hb
      · exact absurd hst (query_stale_not_starting now r s (bool_eq_false_of_not hb))
    simp [he, query_fresh now r s hf]

theorem claim_C5_witness :
    ((queryProcessStatus 300 none (ManagerState.mk ProcessStatus.Running 0 false)).status =
        ProcessStatus.Running ∨
      (queryProcessStatus 300 none (ManagerState.mk ProcessStatus.Running 0 false)).status =
        ProcessStatus.Starting) ∧
    ((startLokinetProcess 300 none true (ManagerState.mk ProcessStatus.Running 0 false)).ok =
        false ∧
      (startLokinetProcess 300 none true
          (ManagerState.mk ProcessStatus.Running 0 false)).calls.spawnCalls = 0 ∧
      (startLokinetProcess 300 none true (ManagerState.mk ProcessStatus.Running 0 false)).state =
        (queryProcessStatus 300 none (ManagerState.mk ProcessStatus.Running 0 false)).state ∧
      (isRecent 300 (ManagerState.mk ProcessStatus.Running 0 false) = true →
        (startLokinetProcess 300 none true (ManagerState.mk ProcessStatus.Running 0 false)).state =
          ManagerState.mk ProcessStatus.Running 0 false) ∧
      ((queryProcessStatus 300 none (ManagerState.mk ProcessStatus.Running 0 false)).status =
          ProcessStatus.Starting →
        (startLokinetProcess 300 none true (ManagerState.mk ProcessStatus.Running 0 false)).state =
          ManagerState.mk ProcessStatus.Running 0 false)) :=
  ⟨by decide,
    claim_C5_start_refuses (ManagerState.mk ProcessStatus.Running 0 false) 300 none true
      (by decide)⟩

/-- C6: whenever the queried status is not Running, `stopLokinetProcess`
returns false without invoking the graceful-stop primitive; otherwise it
sets the cached status to Stopping, invokes the graceful-stop primitive
exactly once, and returns that primitive's success/failure without
waiting for the process to exit. -/
theorem claim_C6_stop_policy (s : ManagerState) (now : Nat) (r : Option Nat) (g : Bool) :
    ((queryProcessStatus now r s).status ≠ ProcessStatus.Running →
      (stopLokinetProcess now r g s).ok = false ∧
      (stopLokinetProcess now r g s).calls.gracefulCalls = 0)
    ∧ ((queryProcessStatus now r s).status = ProcessStatus.Running →
      (stopLokinetProcess now r g s).ok = g ∧
      (stopLokinetProcess now r g s).calls.gracefulCalls = 1 ∧
      (stopLokinetProcess now r g s).state =
        setLastKnownStatus ProcessStatus.Stopping now (queryProcessStatus now r s).state ∧
      (stopLokinetProcess now r g s).state.m_lastKnownStatus = ProcessStatus.Stopping) := by
  constructor
  · intro h
    have he := stop_notrun now r g s h
    exact ⟨by simp [he], by simp [he, query_gracefulCalls]⟩
  · intro h
    have he := stop_run now r g s h
    refine ⟨by simp [he], ?_, by simp [he], by simp [he, setLastKnownStatus]⟩
    simp [he, addCalls, query_gracefulCalls]

theorem claim_C6_witness :
    ((queryProcessStatus 100 none (ManagerState.mk ProcessStatus.Stopped 0 false)).status ≠
        ProcessStatus.Running ∧
      (stopLokinetProcess 100 none true (ManagerState.mk ProcessStatus.Stopped 0 false)).ok =
        false ∧
      (stopLokinetProcess 100 none true
          (ManagerState.mk ProcessStatus.Stopped 0 false)).calls.gracefulCalls = 0) ∧
    ((queryProcessStatus 100 none (ManagerState.mk ProcessStatus.Running 0 false)).status =
        ProcessStatus.Running ∧
      (stopLokinetProcess 100 none true (ManagerState.mk ProcessStatus.Running 0 false)).ok =
        true ∧
      (stopLokinetProcess 100 none true
          (ManagerState.mk ProcessStatus.Running 0 false)).calls.gracefulCalls = 1 ∧
      (stopLokinetProcess 100 none true
          (ManagerState.mk ProcessStatus.Running 0 false)).state.m_lastKnownStatus =
        ProcessStatus.Stopping) :=
  ⟨⟨by decide,
      ((claim_C6_stop_policy (ManagerState.mk ProcessStatus.Stopped 0 false) 100 none true).1
          (by decide)).1,
      ((claim_C6_stop_policy (ManagerState.mk ProcessStatus.Stopped 0 false) 100 none true).1
          (by decide)).2⟩,
    ⟨by decide,
      ((claim_C6_stop_policy (ManagerState.mk ProcessStatus.Running 0 false) 100 none true).2
          (by decide)).1,
      ((claim_C6_stop_policy (ManagerState.mk ProcessStatus.Running 0 false) 100 none true).2
          (by decide)).2.1,
      ((claim_C6_stop_policy (ManagerState.mk ProcessStatus.Running 0 false) 100 none true).2
          (by decide)).2.2.2⟩⟩

/-- C7: when `startLokinetProcess` passes its precondition (queried
status neither Running nor Starting) it invokes the spawn primitive
exactly once; on adapter success it returns true with the cached status
left as Starting; on adapter failure it returns false with the cached
status set conservatively to Stopped — never left claiming success. -/
theorem claim_C7_start_outcome (s : ManagerState) (now : Nat) (r : Option Nat)
    (h : ¬((queryProcessStatus now r s).status = ProcessStatus.Running ∨
           (queryProcessStatus now r s).status = ProcessStatus.Starting)) :
    (∀ sp, (startLokinetProcess now r sp s).calls.spawnCalls = 1)
    ∧ ((startLokinetProcess now r true s).ok = true ∧
       (startLokinetProcess now r true s).state.m_lastKnownStatus = ProcessStatus.Starting)
    ∧ ((startLokinetProcess now r false s).ok = false ∧
       (startLokinetProcess now r false s).state.m_lastKnownStatus = ProcessStatus.Stopped ∧
       (startLokinetProcess now r false s).state.m_lastKnownStatus ≠ ProcessStatus.Starting) := by
  refine ⟨?_, ?_, ?_⟩
  · intro sp
    cases sp
    · simp [start_go_fail now r s h, addCalls, query_spawnCalls]
    · simp [start_go_ok now r s h, addCalls, query_spawnCalls]
  · simp [start_go_ok now r s h, setLastKnownStatus]
  · simp [start_go_fail now r s h, setLastKnownStatus]

theorem claim_C7_witness :
    ¬((queryProcessStatus 100 none (ManagerState.mk ProcessStatus.Stopped 0 false)).status =
          ProcessStatus.Running ∨
        (queryProcessStatus 100 none (ManagerState.mk ProcessStatus.Stopped 0 false)).status =
          ProcessStatus.Starting) ∧
    ((∀ sp, (startLokinetProcess 100 none sp
        (ManagerState.mk ProcessStatus.Stopped 0 false)).calls.spawnCalls = 1)
      ∧ ((startLokinetProcess 100 none true
            (ManagerState.mk ProcessStatus.Stopped 0 false)).ok = true ∧
          (startLokinetProcess 100 none true
              (ManagerState.mk ProcessStatus.Stopped 0 false)).state.m_lastKnownStatus =
            ProcessStatus.Starting)
      ∧ ((startLokinetProcess 100 none false
            (ManagerState.mk ProcessStatus.Stopped 0 false)).ok = false ∧
          (startLokinetProcess 100 none false
              (ManagerState.mk ProcessStatus.Stopped 0 false)).state.m_lastKnownStatus =
            ProcessStatus.Stopped ∧
          (startLokinetProcess 100 none false
              (ManagerState.mk ProcessStatus.Stopped 0 false)).state.m_lastKnownStatus ≠
            ProcessStatus.Starting)) :=
  ⟨by decide,
    claim_C7_start_outcome (ManagerState.mk ProcessStatus.Stopped 0 false) 100 none (by decide)⟩

/-- C8: `forciblyStopLokinetProcess` fails (returns false, invoking
nothing beyond the status query) unless the queried status is Running;
when it proceeds it invokes the force-kill primitive exactly once, never
invokes the graceful-stop primitive, and returns the primitive's
result. -/
theorem claim_C8_forcibly_policy (s : ManagerState) (now : Nat) (r : Option Nat) (f : Bool) :
    ((queryProcessStatus now r s).status ≠ ProcessStatus.Running →
      (forciblyStopLokinetProcess now r f s).ok = false ∧
      (forciblyStopLokinetProcess now r f s).calls.forceCalls = 0 ∧
      (forciblyStopLokinetProcess now r f s).calls.gracefulCalls = 0)
    ∧ ((queryProcessStatus now r s).status = ProcessStatus.Running →
      (forciblyStopLokinetProcess now r f s).calls.forceCalls = 1 ∧
      (forciblyStopLokinetProcess now r f s).calls.gracefulCalls = 0 ∧
      (forciblyStopLokinetProcess now r f s).ok = f) := by
  constructor
  · intro h
    have he := force_notrun now r f s h
    exact ⟨by simp [he], by simp [he, query_forceCalls], by simp [he, query_gracefulCalls]⟩
  · intro h
    have he := force_run now r f s h
    refine ⟨?_, ?_, by simp [he]⟩
    · simp [he, addCalls, query_forceCalls]
    · simp [he, addCalls, query_gracefulCalls]

theorem claim_C8_witness :
    ((queryProcessStatus 100 none (ManagerState.mk ProcessStatus.Stopped 0 false)).status ≠
        ProcessStatus.Running ∧
      (forciblyStopLokinetProcess 100 none true
          (ManagerState.mk ProcessStatus.Stopped 0 false)).ok = false ∧
      (forciblyStopLokinetProcess 100 none true
          (ManagerState.mk ProcessStatus.Stopped 0 false)).calls.forceCalls = 0) ∧
    ((queryProcessStatus 100 none (ManagerState.mk ProcessStatus.Running 0 false)).status =
        ProcessStatus.Running ∧
      (forciblyStopLokinetProcess 100 none true
          (ManagerState.mk ProcessStatus.Running 0 false)).calls.forceCalls = 1 ∧
      (forciblyStopLokinetProcess 100 none true
          (ManagerState.mk ProcessStatus.Running 0 false)).calls.gracefulCalls = 0) :=
  ⟨⟨by decide,
      ((claim_C8_forcibly_policy (ManagerState.mk ProcessStatus.Stopped 0 false) 100 none true).1
          (by decide)).1,
      ((claim_C8_forcibly_policy (ManagerState.mk ProcessStatus.Stopped 0 false) 100 none true).1
          (by decide)).2.1⟩,
    ⟨by decide,
      ((claim_C8_forcibly_policy (ManagerState.mk ProcessStatus.Running 0 false) 100 none true).2
          (by decide)).1,
      ((claim_C8_forcibly_policy (ManagerState.mk ProcessStatus.Running 0 false) 100 none true).2
          (by decide)).2.1⟩⟩

theorem session_calls_none (env : SessionEnv) (s : ManagerState)
    (h1 : (queryProcessStatus env.t1 env.r1 s).status = ProcessStatus.Running)
    (hr : env.r2 = none) :
    (managedStopSession env s).2 =
      addCalls (addCalls (queryProcessStatus env.t1 env.r1 s).calls (AdapterCalls.mk 0 1 0 0))
        AdapterCalls.resolveOnly := by
  have ho1 := stop_run env.t1 env.r1 env.gracefulOk s h1
  have hstale := isRecent_set_grace ProcessStatus.Stopping env.t1
    (queryProcessStatus env.t1 env.r1 s).state
  have hq := query_stale_none (env.t1 + MANAGED_STOP_GRACE)
    (setLastKnownStatus ProcessStatus.Stopping env.t1 (queryProcessStatus env.t1 env.r1 s).state)
    hstale
  unfold managedStopSession
  simp only [ho1, hr, hq]
  simp

theorem session_calls_zero (env : SessionEnv) (s : ManagerState)
    (h1 : (queryProcessStatus env.t1 env.r1 s).status = ProcessStatus.Running)
    (hr : env.r2 = some 0) :
    (managedStopSession env s).2 =
      addCalls (addCalls (queryProcessStatus env.t1 env.r1 s).calls (AdapterCalls.mk 0 1 0 0))
        AdapterCalls.resolveOnly := by
  have ho1 := stop_run env.t1 env.r1 env.gracefulOk s h1
  have hstale := isRecent_set_grace ProcessStatus.Stopping env.t1
    (queryProcessStatus env.t1 env.r1 s).state
  have hq := query_stale_zero (env.t1 + MANAGED_STOP_GRACE)
    (setLastKnownStatus ProcessStatus.Stopping env.t1 (queryProcessStatus env.t1 env.r1 s).state)
    hstale
  unfold managedStopSession
  simp only [ho1, hr, hq]
  simp

theorem session_calls_pos (env : SessionEnv) (s : ManagerState)
    (h1 : (queryProcessStatus env.t1 env.r1 s).status = ProcessStatus.Running)
    (p : Nat) (hr : env.r2 = some p) (hp : p ≠ 0) :
    (managedStopSession env s).2 =
      addCalls (addCalls (queryProcessStatus env.t1 env.r1 s).calls (AdapterCalls.mk 0 1 0 0))
        (addCalls AdapterCalls.resolveOnly
          (addCalls AdapterCalls.zero (AdapterCalls.mk 0 0 1 0))) := by
  have ho1 := stop_run env.t1 env.r1 env.gracefulOk s h1
  have hstale := isRecent_set_grace ProcessStatus.Stopping env.t1
    (queryProcessStatus env.t1 env.r1 s).state
  have hq := query_stale_pos (env.t1 + MANAGED_STOP_GRACE) p
    (setLastKnownStatus ProcessStatus.Stopping env.t1 (queryProcessStatus env.t1 env.r1 s).state)
    hstale hp
  have hfresh2 := isRecent_set_self ProcessStatus.Running (env.t1 + MANAGED_STOP_GRACE)
    (setLastKnownStatus ProcessStatus.Stopping env.t1 (queryProcessStatus env.t1 env.r1 s).state)
  have hqf := query_fresh (env.t1 + MANAGED_STOP_GRACE) (some p)
    (setLastKnownStatus ProcessStatus.Running (env.t1 + MANAGED_STOP_GRACE)
      (setLastKnownStatus ProcessStatus.Stopping env.t1
        (queryProcessStatus env.t1 env.r1 s).state))
    hfresh2
  have hq2 : (queryProcessStatus (env.t1 + MANAGED_STOP_GRACE) (some p)
      (setLastKnownStatus ProcessStatus.Running (env.t1 + MANAGED_STOP_GRACE)
        (setLastKnownStatus ProcessStatus.Stopping env.t1
          (queryProcessStatus env.t1 env.r1 s).state))).status = ProcessStatus.Running := by
    rw [hqf]
    simp [setLastKnownStatus]
  have ho2 := force_run (env.t1 + MANAGED_STOP_GRACE) (some p) env.forceOk
    (setLastKnownStatus ProcessStatus.Running (env.t1 + MANAGED_STOP_GRACE)
      (setLastKnownStatus ProcessStatus.Stopping env.t1
        (queryProcessStatus env.t1 env.r1 s).state))
    hq2
  unfold managedStopSession
  simp only [ho1, hr, hq, ho2, hqf]
  simp

/-- C3: in every managed-stop session whose initial status query
observes Running, the background task requests a graceful stop exactly
once and waits the grace interval before re-querying; if the process
exited within the grace window (re-query pid 0, or a failed re-query)
the force-kill primitive is never invoked by that session, and if the
process is still running past the window (re-query pid nonzero) the
force-kill primitive is invoked exactly once. -/
theorem claim_C3_grace_then_force (env : SessionEnv) (s : ManagerState)
    (h1 : (queryProcessStatus env.t1 env.r1 s).status = ProcessStatus.Running) :
    (managedStopSession env s).2.gracefulCalls = 1
    ∧ (env.r2 = some 0 → (managedStopSession env s).2.forceCalls = 0)
    ∧ (env.r2 = none → (managedStopSession env s).2.forceCalls = 0)
    ∧ (∀ p, env.r2 = some p → p ≠ 0 → (managedStopSession env s).2.forceCalls = 1) := by
  refine ⟨?_, ?_, ?_, ?_⟩
  · cases hr : env.r2 with
    | none =>
      rw [session_calls_none env s h1 hr]
      simp [addCalls, query_gracefulCalls, AdapterCalls.resolveOnly]
    | some p =>
      by_cases hp : p = 0
      · subst hp
        rw [session_calls_zero env s h1 hr]
        simp [addCalls, query_gracefulCalls, AdapterCalls.resolveOnly]
      · rw [session_calls_pos env s h1 p hr hp]
        simp [addCalls, query_gracefulCalls, AdapterCalls.resolveOnly, AdapterCalls.zero]
  · intro hr
    rw [session_calls_zero env s h1 hr]
    simp [addCalls, query_forceCalls, AdapterCalls.resolveOnly]
  · intro hr
    rw [session_calls_none env s h1 hr]
    simp [addCalls, query_forceCalls, AdapterCalls.resolveOnly]
  · intro p hr hp
    rw [session_calls_pos env s h1 p hr hp]
    simp [addCalls, query_forceCalls, AdapterCalls.resolveOnly, AdapterCalls.zero]

theorem claim_C3_witness :
    ((queryProcessStatus 100 none
        (ManagerState.mk ProcessStatus.Running 0 true)).status = ProcessStatus.Running ∧
      (managedStopSession (SessionEnv.mk 100 none true (some 0) true)
          (ManagerState.mk ProcessStatus.Running 0 true)).2.gracefulCalls = 1 ∧
      (managedStopSession (SessionEnv.mk 100 none true (some 0) true)
          (ManagerState.mk ProcessStatus.Running 0 true)).2.forceCalls = 0) ∧
    (managedStopSession (SessionEnv.mk 100 none true (some 9) true)
        (ManagerState.mk ProcessStatus.Running 0 true)).2.forceCalls = 1 :=
  ⟨⟨by decide,
      (claim_C3_grace_then_force (SessionEnv.mk 100 none true (some 0) true)
          (ManagerState.mk ProcessStatus.Running 0 true) (by decide)).1,
      (claim_C3_grace_then_force (SessionEnv.mk 100 none true (some 0) true)
          (ManagerState.mk ProcessStatus.Running 0 true) (by decide)).2.1 rfl⟩,
    (claim_C3_grace_then_force (SessionEnv.mk 100 none true (some 9) true)
        (ManagerState.mk ProcessStatus.Running 0 true) (by decide)).2.2.2 9 rfl (by decide)⟩

/-- C4: the managed-stop single-flight flag is always released: every
background session ends with the flag clear, whatever the adapter
results of the graceful stop, the re-query and the force-kill; and a
`managedStopLokinetProcess` call that acquired the flag leaves it set
exactly when it returned true — in particular, when it returns false
because spawning the background task failed, the flag has been released
before returning. -/
theorem claim_C4_flag_always_released (env : SessionEnv) (s s2 : ManagerState)
    (now : Nat) (r : Option Nat) (sp : Bool)
    (hf : s2.m_managedThreadRunning = false) :
    (managedStopSession env s).1.m_managedThreadRunning = false ∧
    (managedStopLokinetProcess now r sp s2).state.m_managedThreadRunning =
      (managedStopLokinetProcess now r sp s2).ok ∧
    (sp = false → (managedStopLokinetProcess now r sp s2).ok = false ∧
      (managedStopLokinetProcess now r sp s2).state.m_managedThreadRunning = false) := by
  refine ⟨session_flag env s, managed_flag_result now r sp s2 hf, ?_⟩
  intro hsp
  subst hsp
  have h1 := managed_spawn_fail_not_ok now r s2
  exact ⟨h1, by rw [managed_flag_result now r false s2 hf, h1]⟩

theorem claim_C4_witness :
    (ManagerState.mk ProcessStatus.Running 0 false).m_managedThreadRunning = false ∧
    ((managedStopSession (SessionEnv.mk 100 none false (some 3) false)
        (ManagerState.mk ProcessStatus.Running 0 true)).1.m_managedThreadRunning = false ∧
      (managedStopLokinetProcess 2000 (some 5) false
          (ManagerState.mk ProcessStatus.Running 0 false)).state.m_managedThreadRunning =
        (managedStopLokinetProcess 2000 (some 5) false
          (ManagerState.mk ProcessStatus.Running 0 false)).ok ∧
      (false = false →
        (managedStopLokinetProcess 2000 (some 5) false
            (ManagerState.mk ProcessStatus.Running 0 false)).ok = false ∧
        (managedStopLokinetProcess 2000 (some 5) false
            (ManagerState.mk ProcessStatus.Running 0 false)).state.m_managedThreadRunning =
          false)) :=
  ⟨rfl,
    claim_C4_flag_always_released (SessionEnv.mk 100 none false (some 3) false)
      (ManagerState.mk ProcessStatus.Running 0 true)
      (ManagerState.mk ProcessStatus.Running 0 false) 2000 (some 5) false rfl⟩

/-- C1: the managed stop is single-flight.  Along every event trace from
the initial state: at most one background session is live at any
instant; while the flag is held every further `managedStopLokinetProcess`
call returns false immediately; of two back-to-back managed-stop calls
with no completion between them at most the first can return true; and
once a live session completes (releasing the flag), a managed-stop call
that observes the process running succeeds again. -/
theorem claim_C1_single_flight (es : List SupEvent) :
    (runSup supInit es).sessions ≤ 1
    ∧ ((runSup supInit es).mgr.m_managedThreadRunning = true →
        ∀ now r sp, (stepSup (runSup supInit es) (SupEvent.managedEv now r sp)).2 = false)
    ∧ (∀ now r sp now2 r2 sp2,
        (stepSup (runSup supInit es) (SupEvent.managedEv now r sp)).2 = true →
        (stepSup (stepSup (runSup supInit es) (SupEvent.managedEv now r sp)).1
          (SupEvent.managedEv now2 r2 sp2)).2 = false)
    ∧ (∀ env now r, (runSup supInit es).sessions = 1 →
        (queryProcessStatus now r (managedStopSession env (runSup supInit es).mgr).1).status =
          ProcessStatus.Running →
        (stepSup (stepSup (runSup supInit es) (SupEvent.completeEv env)).1
          (SupEvent.managedEv now r true)).2 = true) := by
  have hinv := runSup_inv es
  unfold supInv at hinv
  refine ⟨?_, ?_, ?_, ?_⟩
  · rw [hinv]
    split <;> omega
  · intro hflag now r sp
    simp [stepSup, managed_already now r sp _ hflag]
  · intro now r sp now2 r2 sp2 hok
    have hok' : (managedStopLokinetProcess now r sp (runSup supInit es).mgr).ok = true := by
      simpa [stepSup] using hok
    have hf : (runSup supInit es).mgr.m_managedThreadRunning = false := by
      by_cases hb : (runSup supInit es).mgr.m_managedThreadRunning = true
      · rw [managed_already now r sp _ hb] at hok'
        exact absurd hok' (by simp)
      · exact bool_eq_false_of_not hb
    have hflag2 : (managedStopLokinetProcess now r sp
        (runSup supInit es).mgr).state.m_managedThreadRunning = true := by
      rw [managed_flag_result now r sp _ hf, hok']
    simp [stepSup, managed_already now2 r2 sp2 _ hflag2]
  · intro env now r h1 hq
    have hs0 : ¬((runSup supInit es).sessions = 0) := by
      rw [h1]
      omega
    have hfl := session_flag env (runSup supInit es).mgr
    have hacq := managed_acquire now r (managedStopSession env (runSup supInit es).mgr).1 hfl hq
    simp [stepSup, hs0, hacq]

theorem claim_C1_witness :
    (runSup supInit [SupEvent.managedEv 2000 (some 5) true]).sessions ≤ 1 ∧
    (stepSup (runSup supInit [SupEvent.managedEv 2000 (some 5) true])
        (SupEvent.managedEv 2200 (some 5) true)).2 = false ∧
    (stepSup (stepSup (runSup supInit [SupEvent.managedEv 2000 (some 5) true])
          (SupEvent.completeEv (SessionEnv.mk 2100 none true (some 4) true))).1
        (SupEvent.managedEv 7200 none true)).2 = true := by
  have h := claim_C1_single_flight [SupEvent.managedEv 2000 (some 5) true]
  refine ⟨h.1, ?_, ?_⟩
  · exact h.2.1 (by decide) 2200 (some 5) true
  · exact h.2.2.2 (SessionEnv.mk 2100 none true (some 4) true) 7200 none (by decide) (by decide)

theorem snap_trans {ts : List Nat} {a b c : ManagerState}
    (h1 : (b.m_lastKnownStatus = a.m_lastKnownStatus ∧
            b.m_lastStatusTime = a.m_lastStatusTime) ∨ b.m_lastStatusTime ∈ ts)
    (h2 : (c.m_lastKnownStatus = b.m_lastKnownStatus ∧
            c.m_lastStatusTime = b.m_lastStatusTime) ∨ c.m_lastStatusTime ∈ ts) :
    (c.m_lastKnownStatus = a.m_lastKnownStatus ∧
      c.m_lastStatusTime = a.m_lastStatusTime) ∨ c.m_lastStatusTime ∈ ts := by
  rcases h2 with ⟨h2s, h2t⟩ | h2t
  · rcases h1 with ⟨h1s, h1t⟩ | h1t
    · exact Or.inl ⟨h2s.trans h1s, h2t.trans h1t⟩
    · right
      rw [h2t]
      exact h1t
  · exact Or.inr h2t

theorem query_snap (now : Nat) (r : Option Nat) (s : ManagerState) (ts : List Nat)
    (hin : now ∈ ts) :
    ((queryProcessStatus now r s).state.m_lastKnownStatus = s.m_lastKnownStatus ∧
      (queryProcessStatus now r s).state.m_lastStatusTime = s.m_lastStatusTime) ∨
    (queryProcessStatus now r s).state.m_lastStatusTime ∈ ts := by
  by_cases h : isRecent now s = true
  · rw [query_fresh now r s h]
    exact Or.inl ⟨rfl, rfl⟩
  · have h' := bool_eq_false_of_not h
    cases r with
    | none =>
      rw [query_stale_none now s h']
      exact Or.inl ⟨rfl, rfl⟩
    | some p =>
      by_cases hp : p = 0
      · subst hp
        rw [query_stale_zero now s h']
        exact Or.inr hin
      · rw [query_stale_pos now p s h' hp]
        exact Or.inr hin

theorem start_snap (now : Nat) (r : Option Nat) (sp : Bool) (s : ManagerState) (ts : List Nat)
    (hin : now ∈ ts) :
    ((startLokinetProcess now r sp s).state.m_lastKnownStatus = s.m_lastKnownStatus ∧
      (startLokinetProcess now r sp s).state.m_lastStatusTime = s.m_lastStatusTime) ∨
    (startLokinetProcess now r sp s).state.m_lastStatusTime ∈ ts := by
  by_cases hpre : (queryProcessStatus now r s).status = ProcessStatus.Running ∨
      (queryProcessStatus now r s).status = ProcessStatus.Starting
  · rw [start_precond_fail now r sp s hpre]
    exact query_snap now r s ts hin
  · cases sp
    · rw [start_go_fail now r s hpre]
      exact Or.inr hin
    · rw [start_go_ok now r s hpre]
      exact Or.inr hin

theorem stop_snap (now : Nat) (r : Option Nat) (g : Bool) (s : ManagerState) (ts : List Nat)
    (hin : now ∈ ts) :
    ((stopLokinetProcess now r g s).state.m_lastKnownStatus = s.m_lastKnownStatus ∧
      (stopLokinetProcess now r g s).state.m_lastStatusTime = s.m_lastStatusTime) ∨
    (stopLokinetProcess now r g s).state.m_lastStatusTime ∈ ts := by
  by_cases h : (queryProcessStatus now r s).status = ProcessStatus.Running
  · rw [stop_run now r g s h]
    exact Or.inr hin
  · rw [stop_notrun now r g s h]
    exact query_snap now r s ts hin

theorem force_snap (now : Nat) (r : Option Nat) (f : Bool) (s : ManagerState) (ts : List Nat)
    (hin : now ∈ ts) :
    ((forciblyStopLokinetProcess now r f s).state.m_lastKnownStatus = s.m_lastKnownStatus ∧
      (forciblyStopLokinetProcess now r f s).state.m_lastStatusTime = s.m_lastStatusTime) ∨
    (forciblyStopLokinetProcess now r f s).state.m_lastStatusTime ∈ ts := by
  by_cases h : (queryProcessStatus now r s).status = ProcessStatus.Running
  · rw [force_run now r f s h]
    exact query_snap now r s ts hin
  · rw [force_notrun now r f s h]
    exact query_snap now r s ts hin

theorem managed_snap (now : Nat) (r : Option Nat) (sp : Bool) (s : ManagerState) (ts : List Nat)
    (hin : now ∈ ts) :
    ((managedStopLokinetProcess now r sp s).state.m_lastKnownStatus = s.m_lastKnownStatus ∧
      (managedStopLokinetProcess now r sp s).state.m_lastStatusTime = s.m_lastStatusTime) ∨
    (managedStopLokinetProcess now r sp s).state.m_lastStatusTime ∈ ts := by
  have hq := query_snap now r (setManagedFlag true s) ts hin
  unfold managedStopLokinetProcess
  simp only []
  split
  · exact Or.inl ⟨rfl, rfl⟩
  · split
    · split
      · exact hq
      · exact hq
    · exact hq

theorem session_snap (env : SessionEnv) (s : ManagerState) (ts : List Nat)
    (h1 : env.t1 ∈ ts) (h2 : env.t1 + MANAGED_STOP_GRACE ∈ ts) :
    ((managedStopSession env s).1.m_lastKnownStatus = s.m_lastKnownStatus ∧
      (managedStopSession env s).1.m_lastStatusTime = s.m_lastStatusTime) ∨
    (managedStopSession env s).1.m_lastStatusTime ∈ ts := by
  have ha := stop_snap env.t1 env.r1 env.gracefulOk s ts h1
  have hb := query_snap (env.t1 + MANAGED_STOP_GRACE) env.r2
    (stopLokinetProcess env.t1 env.r1 env.gracefulOk s).state ts h2
  have hc := force_snap (env.t1 + MANAGED_STOP_GRACE) env.r2 env.forceOk
    (queryProcessStatus (env.t1 + MANAGED_STOP_GRACE) env.r2
      (stopLokinetProcess env.t1 env.r1 env.gracefulOk s).state).state ts h2
  unfold managedStopSession
  simp only []
  split
  · simp only [setManagedFlag]
    exact snap_trans ha (snap_trans hb hc)
  · simp only [setManagedFlag]
    exact snap_trans ha hb

/-- C9: the snapshot pair (`m_lastKnownStatus`, `m_lastStatusTime`) is
only ever mutated as a unit through the single setter: across any atomic
step of the interleaving model, either both fields are unchanged, or the
timestamp is one of the instants at which that step ran the setter — no
reachable state pairs a status with a timestamp from a different
update. -/
theorem claim_C9_snapshot_updated_together (s : SupState) (e : SupEvent) :
    ((stepSup s e).1.mgr.m_lastKnownStatus = s.mgr.m_lastKnownStatus ∧
      (stepSup s e).1.mgr.m_lastStatusTime = s.mgr.m_lastStatusTime) ∨
    (stepSup s e).1.mgr.m_lastStatusTime ∈ eventTimes e := by
  cases e with
  | startEv now r ok =>
    simpa [stepSup, eventTimes] using start_snap now r ok s.mgr [now] (by simp)
  | stopEv now r ok =>
    simpa [stepSup, eventTimes] using stop_snap now r ok s.mgr [now] (by simp)
  | forceEv now r ok =>
    simpa [stepSup, eventTimes] using force_snap now r ok s.mgr [now] (by simp)
  | queryEv now r =>
    simpa [stepSup, eventTimes] using query_snap now r s.mgr [now] (by simp)
  | managedEv now r sp =>
    simpa [stepSup, eventTimes] using managed_snap now r sp s.mgr [now] (by simp)
  | completeEv env =>
    by_cases hz : s.sessions = 0
    · simp [stepSup, hz]
    · simpa [stepSup, hz, eventTimes] using
        session_snap env s.mgr [env.t1, env.t1 + MANAGED_STOP_GRACE] (by simp) (by simp)
